import Mathlib

/-!
Verification of the Recipe Assistant message-routing and search flow
(`src/recipe_assist.py`).

The Python program is shallowly embedded as follows.

* Query-parameter dictionaries (insertion-ordered, with distinct literal
  keys) become association lists `List (String × PVal)`; `PVal` covers the
  Python value kinds that occur (`str`, `int`, `bool`).
* `RecipeAssistant.search_recipes` (lines 33-70) becomes a pure function
  from its keyword arguments (`SearchArgs`, every field optional exactly as
  in the Python signature) to the parameter list, composed with an abstract
  HTTP-GET effect `doGet`; `requests.Response.json()` is the `body` field of
  `HttpResponse` (an `Except`, since `.json()` can raise on a non-JSON
  body).  Note the source never consults `response.status_code`.
* Python exceptions become `Except String` values whose payload is the
  exception text; `try/except/raise Exception(f"Error processing message:
  {str(e)}")` (lines 146-188) becomes `wrapErr`.
* The three chat-completion calls and `json.loads` are external effects;
  `process_message` is parameterised over an `Env` recording each call
  site's outcome.  A Mistral response with no tool call is modelled as an
  empty `tool_calls` list, whose indexing failure carries Python's
  IndexError text.
* `content.lower().strip() == "true"` (line 31) is modelled on `List Char`:
  `pyLowerChar` is ASCII lower-casing, `pySpace` the Python whitespace
  class, `pyStrip` strips both ends.
* The Streamlit rendering guard `if is_recipe and results and 'results' in
  results and results['results']:` (lines 245-254, same shape at 212-221)
  becomes `displayRecipes`.
-/

namespace RecipeAssist

/-- Python values that occur in the outbound query dictionary. -/
inductive PVal where
  | str : String → PVal
  | int : Int → PVal
  | bool : Bool → PVal
deriving DecidableEq, Repr

/-- The keyword arguments of `RecipeAssistant.search_recipes`
(src/recipe_assist.py lines 33-42); every parameter is optional with
default `None`. -/
structure SearchArgs where
  ingredients : Option (List String)
  cuisine : Option String
  diet : Option String
  intolerances : Option (List String)
  meal_type : Option String
  max_ready_time : Option Int
  min_protein : Option Int
  max_calories : Option Int
  sort : Option String
deriving DecidableEq, Repr

/-- The all-`None` argument record (calling `search_recipes()` with no
keyword arguments). -/
def noArgs : SearchArgs :=
  ⟨none, none, none, none, none, none, none, none, none⟩

/-- Python `','.join(l)` (src/recipe_assist.py lines 51 and 57). -/
def joinComma (l : List String) : String :=
  String.intercalate "," l

/-- One conditional insertion `if <list>: params[key] = ','.join(<list>)`:
a `None` or empty list is falsy, so the key is omitted; a non-empty list is
joined with commas. -/
def listParam (key : String) (o : Option (List String)) : List (String × PVal) :=
  match o with
  | none => []
  | some [] => []
  | some (x :: xs) => [(key, PVal.str (joinComma (x :: xs)))]

/-- One conditional insertion `if <str>: params[key] = <str>`: a `None` or
empty string is falsy, so the key is omitted. -/
def strParam (key : String) (o : Option String) : List (String × PVal) :=
  match o with
  | none => []
  | some s => if s.isEmpty then [] else [(key, PVal.str s)]

/-- One conditional insertion `if <int>: params[key] = <int>`: a `None` or
zero value is falsy, so the key is omitted. -/
def intParam (key : String) (o : Option Int) : List (String × PVal) :=
  match o with
  | none => []
  | some n => if n = 0 then [] else [(key, PVal.int n)]

/-- The query dictionary built by `RecipeAssistant.search_recipes`
(src/recipe_assist.py lines 43-67), as an insertion-ordered association
list: the four unconditional entries first, then the nine conditional
filter entries in source order. -/
def search_recipes_params (apiKey : String) (a : SearchArgs) : List (String × PVal) :=
  [("apiKey", PVal.str apiKey),
   ("addRecipeInformation", PVal.bool true),
   ("fillIngredients", PVal.bool true),
   ("number", PVal.int 5)]
  ++ listParam "includeIngredients" a.ingredients
  ++ strParam "cuisine" a.cuisine
  ++ strParam "diet" a.diet
  ++ listParam "intolerances" a.intolerances
  ++ strParam "type" a.meal_type
  ++ intParam "maxReadyTime" a.max_ready_time
  ++ intParam "minProtein" a.min_protein
  ++ intParam "maxCalories" a.max_calories
  ++ strParam "sort" a.sort

/-- `200 ≤ status ≤ 299`, the success range mentioned by the spec.  The
source itself never inspects the status code. -/
def is2xx (n : Nat) : Bool :=
  200 ≤ n && n ≤ 299

/-- One recipe summary as consumed by the display layer
(src/recipe_assist.py lines 218-221): title, image, readyInMinutes,
servings, sourceUrl. -/
structure Recipe where
  title : String
  image : String
  readyInMinutes : Int
  servings : Int
  sourceUrl : String
deriving DecidableEq, Repr

/-- The parsed body of a search response: the optional `results` key (a
list of recipe summaries; `none` models a dict without that key) plus the
number of other top-level keys, which decides Python dict truthiness. -/
structure SearchResponse where
  results : Option (List Recipe)
  extraKeys : Nat
deriving DecidableEq, Repr

/-- Python truthiness of the response dict (`if results ...`): a dict is
truthy iff it has at least one key. -/
def dictTruthy (r : SearchResponse) : Bool :=
  r.results.isSome || decide (r.extraKeys ≠ 0)

/-- Outcome of `requests.get`: HTTP status plus the result of `.json()`
(`Except`, since `.json()` raises on a non-JSON body). -/
structure HttpResponse where
  status : Nat
  body : Except String SearchResponse

/-- `RecipeAssistant.search_recipes` (src/recipe_assist.py lines 33-70):
build the params, perform the GET, and return `response.json()`.  The
status code is never examined and no exception handler is installed, so a
transport or JSON-parse failure propagates unchanged. -/
def search_recipes (doGet : List (String × PVal) → Except String HttpResponse)
    (apiKey : String) (a : SearchArgs) : Except String SearchResponse :=
  match doGet (search_recipes_params apiKey a) with
  | Except.error e => Except.error e
  | Except.ok resp => resp.body

/-- ASCII lower-casing of one character, modelling Python `str.lower` on
the code points the classifier compares against. -/
def pyLowerChar (c : Char) : Char :=
  if 65 ≤ c.toNat ∧ c.toNat ≤ 90 then Char.ofNat (c.toNat + 32) else c

/-- Python `str.lower` over the character list. -/
def pyLower (s : List Char) : List Char :=
  s.map pyLowerChar

/-- Python whitespace class used by `str.strip()`: space and the control
characters 9-13 (tab, newline, vertical tab, form feed, carriage
return). -/
def pySpace (c : Char) : Bool :=
  decide (c.toNat = 32 ∨ (9 ≤ c.toNat ∧ c.toNat ≤ 13))

/-- Python `str.strip()`: drop whitespace from both ends. -/
def pyStrip (s : List Char) : List Char :=
  ((s.dropWhile pySpace).reverse.dropWhile pySpace).reverse

/-- Interpretation of the classification reply,
`response.choices[0].message.content.lower().strip() == "true"`
(src/recipe_assist.py line 31). -/
def is_recipe_reply (content : String) : Bool :=
  decide (pyStrip (pyLower content.toList) = "true".toList)

/-- One structured tool call of a Mistral response: id, function name, and
the JSON-encoded argument text. -/
structure ToolCall where
  id : String
  name : String
  arguments : String
deriving DecidableEq, Repr

/-- The assistant message of a Mistral completion response: plain content
plus the list of structured tool calls (empty when the model returned no
tool call). -/
structure CompletionMessage where
  content : String
  tool_calls : List ToolCall
deriving DecidableEq, Repr

/-- Outcomes of the external effects that `process_message` performs, one
field per call site: the classification completion inside
`is_recipe_query`, the tool-enabled completion, `json.loads` over the
argument text (including the unpacking into the `search_recipes`
parameters), the HTTP GET of `search_recipes`, the second (narration)
completion, and the plain-chat completion of `RecipeAssistant.chat`.  An
`Except.error` payload is the raised exception's text. -/
structure Env where
  classifyReply : Except String String
  toolResponse : Except String CompletionMessage
  jsonLoads : String → Except String SearchArgs
  doGet : List (String × PVal) → Except String HttpResponse
  finalReply : Except String String
  chatReply : Except String String

/-- Python's IndexError text for `tool_calls[0]` on an empty list
(src/recipe_assist.py line 161). -/
def indexErr : String :=
  "list index out of range"

/-- The context prefix of the wrapping handler
(src/recipe_assist.py line 188). -/
def errCtx : String :=
  "Error processing message: "

/-- The `try`/`except` of `process_message` (src/recipe_assist.py lines
146 and 187-188): any exception escaping the body is re-raised as
`Exception(f"Error processing message: {str(e)}")`. -/
def wrapErr (x : Except String α) : Except String α :=
  match x with
  | Except.ok v => Except.ok v
  | Except.error e => Except.error (errCtx ++ e)

/-- The body of `process_message` (src/recipe_assist.py lines 147-185,
inside the `try`): classify; if food-related, take the first tool call of
the tool-enabled completion, parse its arguments, run the search, ask for
the narration completion, and return `(content, results, True)`; otherwise
return the plain-chat reply as `(content, None, False)`. -/
def process_message_body (env : Env) (spoonacularKey : String) (message : String) :
    Except String (String × Option SearchResponse × Bool) :=
  match env.classifyReply with
  | Except.error e => Except.error e
  | Except.ok reply =>
    if is_recipe_reply reply then
      match env.toolResponse with
      | Except.error e => Except.error e
      | Except.ok resp =>
        match resp.tool_calls with
        | [] => Except.error indexErr
        | tc :: _ =>
          match env.jsonLoads tc.arguments with
          | Except.error e => Except.error e
          | Except.ok args =>
            match search_recipes env.doGet spoonacularKey args with
            | Except.error e => Except.error e
            | Except.ok results =>
              match env.finalReply with
              | Except.error e => Except.error e
              | Except.ok content => Except.ok (content, some results, true)
    else
      match env.chatReply with
      | Except.error e => Except.error e
      | Except.ok content => Except.ok (content, none, false)

/-- `process_message` (src/recipe_assist.py lines 144-188): the body under
the wrapping exception handler. -/
def process_message (env : Env) (spoonacularKey : String) (message : String) :
    Except String (String × Option SearchResponse × Bool) :=
  wrapErr (process_message_body env spoonacularKey message)

/-- The four lines rendered per recipe
(src/recipe_assist.py lines 251-254). -/
def renderRecipe (r : Recipe) : List String :=
  ["**" ++ r.title ++ "**",
   "Ready in: " ++ toString r.readyInMinutes ++ " minutes",
   "Servings: " ++ toString r.servings,
   "[View Recipe](" ++ r.sourceUrl ++ ")"]

/-- The guarded display path of `main` (src/recipe_assist.py lines
245-254; the history loop at 212-221 has the same guard without the
`is_recipe` conjunct): the per-recipe loop indexing recipe fields runs
only when `is_recipe and results and 'results' in results and
results['results']` is truthy. -/
def displayRecipes (is_recipe : Bool) (results : Option SearchResponse) :
    List (List String) :=
  match results with
  | none => []
  | some r =>
    if is_recipe && dictTruthy r && r.results.isSome && !(r.results.getD []).isEmpty
    then (r.results.getD []).map renderRecipe
    else []

/-- A valid code point round-trips through `Char.ofNat`. -/
theorem toNat_ofNat_valid (n : Nat) (h : n.isValidChar) : (Char.ofNat n).toNat = n := by
  simp only [Char.ofNat, dif_pos h, Char.ofNatAux, Char.toNat, UInt32.toNat]
  simp

/-- ASCII lower-casing neither creates nor destroys whitespace. -/
theorem pySpace_pyLowerChar (c : Char) : pySpace (pyLowerChar c) = pySpace c := by
  unfold pyLowerChar pySpace
  by_cases h : 65 ≤ c.toNat ∧ c.toNat ≤ 90
  · rw [if_pos h, toNat_ofNat_valid _ (Or.inl (by omega))]
    exact decide_eq_decide.mpr (by omega)
  · rw [if_neg h]

/-- Lower-casing commutes with dropping leading whitespace. -/
theorem dropWhile_map_pyLower (s : List Char) :
    (s.map pyLowerChar).dropWhile pySpace = (s.dropWhile pySpace).map pyLowerChar := by
  rw [List.dropWhile_map]
  have h : pySpace ∘ pyLowerChar = pySpace := funext pySpace_pyLowerChar
  rw [h]

/-- Lower-casing commutes with stripping whitespace from both ends. -/
theorem pyStrip_pyLower (s : List Char) : pyStrip (pyLower s) = pyLower (pyStrip s) := by
  unfold pyStrip pyLower
  rw [dropWhile_map_pyLower, ← List.map_reverse, dropWhile_map_pyLower, ← List.map_reverse]

/-- A `listParam` entry list never carries a key other than its own. -/
theorem lookup_listParam_ne (k key : String) (o : Option (List String))
    (h : (k == key) = false) : List.lookup k (listParam key o) = none := by
  match o with
  | none => rfl
  | some [] => rfl
  | some (x :: xs) => simp [listParam, List.lookup, h]

/-- A `strParam` entry list never carries a key other than its own. -/
theorem lookup_strParam_ne (k key : String) (o : Option String)
    (h : (k == key) = false) : List.lookup k (strParam key o) = none := by
  cases o with
  | none => rfl
  | some s =>
    by_cases he : s.isEmpty <;> simp [strParam, he, List.lookup, h]

/-- An `intParam` entry list never carries a key other than its own. -/
theorem lookup_intParam_ne (k key : String) (o : Option Int)
    (h : (k == key) = false) : List.lookup k (intParam key o) = none := by
  cases o with
  | none => rfl
  | some n =>
    by_cases he : n = 0 <;> simp [intParam, he, List.lookup, h]

/-- Looking up `includeIngredients` in the full query reduces to its own
conditional segment: no other segment carries that key. -/
theorem lookup_params_ingredients (apiKey : String) (a : SearchArgs) :
    List.lookup "includeIngredients" (search_recipes_params apiKey a) =
      List.lookup "includeIngredients" (listParam "includeIngredients" a.ingredients) := by
  simp +decide [search_recipes_params, List.lookup_append, List.lookup,
    lookup_listParam_ne, lookup_strParam_ne, lookup_intParam_ne, Option.or_none]

/-- Looking up `intolerances` in the full query reduces to its own
conditional segment. -/
theorem lookup_params_intolerances (apiKey : String) (a : SearchArgs) :
    List.lookup "intolerances" (search_recipes_params apiKey a) =
      List.lookup "intolerances" (listParam "intolerances" a.intolerances) := by
  simp +decide [search_recipes_params, List.lookup_append, List.lookup,
    lookup_listParam_ne, lookup_strParam_ne, lookup_intParam_ne, Option.or_none]

/-- Looking up `cuisine` in the full query reduces to its own conditional
segment. -/
theorem lookup_params_cuisine (apiKey : String) (a : SearchArgs) :
    List.lookup "cuisine" (search_recipes_params apiKey a) =
      List.lookup "cuisine" (strParam "cuisine" a.cuisine) := by
  simp +decide [search_recipes_params, List.lookup_append, List.lookup,
    lookup_listParam_ne, lookup_strParam_ne, lookup_intParam_ne, Option.or_none]

/-- Looking up `diet` in the full query reduces to its own conditional
segment. -/
theorem lookup_params_diet (apiKey : String) (a : SearchArgs) :
    List.lookup "diet" (search_recipes_params apiKey a) =
      List.lookup "diet" (strParam "diet" a.diet) := by
  simp +decide [search_recipes_params, List.lookup_append, List.lookup,
    lookup_listParam_ne, lookup_strParam_ne, lookup_intParam_ne, Option.or_none]

/-- Looking up `type` in the full query reduces to its own conditional
segment. -/
theorem lookup_params_type (apiKey : String) (a : SearchArgs) :
    List.lookup "type" (search_recipes_params apiKey a) =
      List.lookup "type" (strParam "type" a.meal_type) := by
  simp +decide [search_recipes_params, List.lookup_append, List.lookup,
    lookup_listParam_ne, lookup_strParam_ne, lookup_intParam_ne, Option.or_none]

/-- Looking up `maxReadyTime` in the full query reduces to its own
conditional segment. -/
theorem lookup_params_maxReadyTime (apiKey : String) (a : SearchArgs) :
    List.lookup "maxReadyTime" (search_recipes_params apiKey a) =
      List.lookup "maxReadyTime" (intParam "maxReadyTime" a.max_ready_time) := by
  simp +decide [search_recipes_params, List.lookup_append, List.lookup,
    lookup_listParam_ne, lookup_strParam_ne, lookup_intParam_ne, Option.or_none]

/-- Looking up `minProtein` in the full query reduces to its own
conditional segment. -/
theorem lookup_params_minProtein (apiKey : String) (a : SearchArgs) :
    List.lookup "minProtein" (search_recipes_params apiKey a) =
      List.lookup "minProtein" (intParam "minProtein" a.min_protein) := by
  simp +decide [search_recipes_params, List.lookup_append, List.lookup,
    lookup_listParam_ne, lookup_strParam_ne, lookup_intParam_ne, Option.or_none]

/-- Looking up `maxCalories` in the full query reduces to its own
conditional segment. -/
theorem lookup_params_maxCalories (apiKey : String) (a : SearchArgs) :
    List.lookup "maxCalories" (search_recipes_params apiKey a) =
      List.lookup "maxCalories" (intParam "maxCalories" a.max_calories) := by
  simp +decide [search_recipes_params, List.lookup_append, List.lookup,
    lookup_listParam_ne, lookup_strParam_ne, lookup_intParam_ne, Option.or_none]

/-- Looking up `sort` in the full query reduces to its own conditional
segment. -/
theorem lookup_params_sort (apiKey : String) (a : SearchArgs) :
    List.lookup "sort" (search_recipes_params apiKey a) =
      List.lookup "sort" (strParam "sort" a.sort) := by
  simp +decide [search_recipes_params, List.lookup_append, List.lookup,
    lookup_listParam_ne, lookup_strParam_ne, lookup_intParam_ne, Option.or_none]

/-- C3: the classification reply is interpreted as food-related exactly
when the reply, trimmed of whitespace and lower-cased, equals the string
"true"; every other reply yields `false`
(src/recipe_assist.py line 31). -/
theorem claim_C3_is_recipe_reply_iff (content : String) :
    is_recipe_reply content = true ↔ pyLower (pyStrip content.toList) = "true".toList := by
  unfold is_recipe_reply
  rw [decide_eq_true_iff, pyStrip_pyLower]

/-- C4: every outbound search query contains the enriched-recipe-information
flag `addRecipeInformation = True` and the page-size parameter `number = 5`,
regardless of which optional filters are present
(src/recipe_assist.py lines 43-48). -/
theorem claim_C4_always_enriched_and_page_five (apiKey : String) (a : SearchArgs) :
    List.lookup "addRecipeInformation" (search_recipes_params apiKey a) =
      some (PVal.bool true) ∧
    List.lookup "number" (search_recipes_params apiKey a) = some (PVal.int 5) :=
  ⟨rfl, rfl⟩

/-- C5: a list-valued filter of length at least one appears in the outbound
query as its elements joined by commas, and a list-valued filter of length
zero (or an absent one) is omitted from the query entirely — for both
`ingredients` → `includeIngredients` and `intolerances`; in particular
`["chicken", "rice"]` is sent as `"chicken,rice"`
(src/recipe_assist.py lines 50-57). -/
theorem claim_C5_list_params_join_or_omit (apiKey : String) (a : SearchArgs) :
    (∀ x xs, a.ingredients = some (x :: xs) →
        List.lookup "includeIngredients" (search_recipes_params apiKey a) =
          some (PVal.str (joinComma (x :: xs)))) ∧
    (a.ingredients = some [] ∨ a.ingredients = none →
        List.lookup "includeIngredients" (search_recipes_params apiKey a) = none) ∧
    (∀ x xs, a.intolerances = some (x :: xs) →
        List.lookup "intolerances" (search_recipes_params apiKey a) =
          some (PVal.str (joinComma (x :: xs)))) ∧
    (a.intolerances = some [] ∨ a.intolerances = none →
        List.lookup "intolerances" (search_recipes_params apiKey a) = none) ∧
    joinComma ["chicken", "rice"] = "chicken,rice" := by
  refine ⟨?_, ?_, ?_, ?_, rfl⟩
  · intro x xs h
    rw [lookup_params_ingredients, h]
    simp [listParam, List.lookup]
  · intro h
    rw [lookup_params_ingredients]
    rcases h with h | h <;> rw [h] <;> rfl
  · intro x xs h
    rw [lookup_params_intolerances, h]
    simp [listParam, List.lookup]
  · intro h
    rw [lookup_params_intolerances]
    rcases h with h | h <;> rw [h] <;> rfl

/-- Concrete arguments for the C5 witness: a two-element ingredient list
and an explicitly empty intolerance list. -/
def argsC5 : SearchArgs :=
  ⟨some ["chicken", "rice"], none, none, some [], none, none, none, none, none⟩

/-- Witness for C5: with `["chicken", "rice"]` the query carries
`includeIngredients = "chicken,rice"`, and the empty intolerance list is
omitted. -/
theorem claim_C5_witness :
    List.lookup "includeIngredients" (search_recipes_params "key" argsC5) =
      some (PVal.str "chicken,rice") ∧
    List.lookup "intolerances" (search_recipes_params "key" argsC5) = none := by
  have h := claim_C5_list_params_join_or_omit "key" argsC5
  refine ⟨?_, h.2.2.2.1 (Or.inl rfl)⟩
  rw [h.1 "chicken" ["rice"] rfl]
  rfl

/-- C9: a numeric bound explicitly passed as `0`, or a string filter passed
as the empty string, is dropped by the truthiness test: the outbound query
is exactly the one produced with the parameter absent, and the
corresponding key is not sent (src/recipe_assist.py lines 50-67). -/
theorem claim_C9_falsy_params_omitted (apiKey : String) (a : SearchArgs) :
    (search_recipes_params apiKey { a with max_ready_time := some 0 } =
       search_recipes_params apiKey { a with max_ready_time := none } ∧
     List.lookup "maxReadyTime"
       (search_recipes_params apiKey { a with max_ready_time := some 0 }) = none) ∧
    (search_recipes_params apiKey { a with min_protein := some 0 } =
       search_recipes_params apiKey { a with min_protein := none } ∧
     List.lookup "minProtein"
       (search_recipes_params apiKey { a with min_protein := some 0 }) = none) ∧
    (search_recipes_params apiKey { a with max_calories := some 0 } =
       search_recipes_params apiKey { a with max_calories := none } ∧
     List.lookup "maxCalories"
       (search_recipes_params apiKey { a with max_calories := some 0 }) = none) ∧
    (search_recipes_params apiKey { a with cuisine := some "" } =
       search_recipes_params apiKey { a with cuisine := none } ∧
     List.lookup "cuisine"
       (search_recipes_params apiKey { a with cuisine := some "" }) = none) ∧
    (search_recipes_params apiKey { a with diet := some "" } =
       search_recipes_params apiKey { a with diet := none } ∧
     List.lookup "diet"
       (search_recipes_params apiKey { a with diet := some "" }) = none) ∧
    (search_recipes_params apiKey { a with meal_type := some "" } =
       search_recipes_params apiKey { a with meal_type := none } ∧
     List.lookup "type"
       (search_recipes_params apiKey { a with meal_type := some "" }) = none) ∧
    (search_recipes_params apiKey { a with sort := some "" } =
       search_recipes_params apiKey { a with sort := none } ∧
     List.lookup "sort"
       (search_recipes_params apiKey { a with sort := some "" }) = none) := by
  refine ⟨⟨rfl, ?_⟩, ⟨rfl, ?_⟩, ⟨rfl, ?_⟩, ⟨rfl, ?_⟩, ⟨rfl, ?_⟩, ⟨rfl, ?_⟩, ⟨rfl, ?_⟩⟩
  · rw [lookup_params_maxReadyTime]
    rfl
  · rw [lookup_params_minProtein]
    rfl
  · rw [lookup_params_maxCalories]
    rfl
  · rw [lookup_params_cuisine]
    rfl
  · rw [lookup_params_diet]
    rfl
  · rw [lookup_params_type]
    rfl
  · rw [lookup_params_sort]
    rfl

/-- A non-2xx response whose body still parses as JSON, as the Spoonacular
API produces for a payment-required failure: no `results` key, a few
status/message keys. -/
def errorBody402 : SearchResponse := ⟨none, 3⟩

/-- A GET effect answering status 402 with a JSON error body. -/
def doGet402 : List (String × PVal) → Except String HttpResponse :=
  fun _ => Except.ok ⟨402, Except.ok errorBody402⟩

/-- C2 counterexample: on a non-2xx (402) response whose body is valid
JSON, `search_recipes` does not raise — it returns the parsed body, because
the source never checks `response.status_code`
(src/recipe_assist.py lines 69-70). -/
theorem claim_C2_counterexample :
    search_recipes doGet402 "key" noArgs = Except.ok errorBody402 ∧
    is2xx 402 = false :=
  ⟨rfl, rfl⟩

/-- C2 amended: `search_recipes` never inspects the HTTP status; for any
status it returns the parsed response body, and an exception arises only
from the transport call or from JSON parsing, propagating without added
context (src/recipe_assist.py lines 69-70). -/
theorem claim_C2_returns_body_any_status
    (doGet : List (String × PVal) → Except String HttpResponse)
    (apiKey : String) (a : SearchArgs) :
    (∀ resp, doGet (search_recipes_params apiKey a) = Except.ok resp →
        search_recipes doGet apiKey a = resp.body) ∧
    (∀ e, doGet (search_recipes_params apiKey a) = Except.error e →
        search_recipes doGet apiKey a = Except.error e) := by
  constructor <;> intro x h <;> simp [search_recipes, h]

/-- A 2xx response body with an (empty) `results` list plus other keys. -/
def okBody200 : SearchResponse := ⟨some [], 2⟩

/-- A GET effect answering status 200 with a JSON body. -/
def doGet200 : List (String × PVal) → Except String HttpResponse :=
  fun _ => Except.ok ⟨200, Except.ok okBody200⟩

/-- Witness for the amended C2 at a concrete 200-status response. -/
theorem claim_C2_witness :
    search_recipes doGet200 "key" noArgs = Except.ok okBody200 := by
  have h := (claim_C2_returns_body_any_status doGet200 "key" noArgs).1
    ⟨200, Except.ok okBody200⟩ rfl
  exact h

/-- Environment of a non-food conversation whose plain-chat call answers
with one reply; the food-branch effects are unreachable. -/
def chatEnvA : Env :=
  ⟨Except.ok "false", Except.error "unused", fun _ => Except.error "unused",
   fun _ => Except.error "unused", Except.error "unused",
   Except.ok "Paris is the capital of France."⟩

/-- Like `chatEnvA` but the plain-chat call answers differently. -/
def chatEnvB : Env :=
  ⟨Except.ok "false", Except.error "unused", fun _ => Except.error "unused",
   fun _ => Except.error "unused", Except.error "unused",
   Except.ok "It is Paris."⟩

/-- Like `chatEnvA` but the plain-chat call fails. -/
def chatEnvC : Env :=
  ⟨Except.ok "false", Except.error "unused", fun _ => Except.error "unused",
   fun _ => Except.error "unused", Except.error "unused",
   Except.error "chat network down"⟩

/-- C1 counterexample: for a message classified as not food-related,
`process_message` does not return a fixed decline message and does make a
further external call — it forwards the message to the plain-chat
completion and returns whatever that call yields, so the returned text
varies with the chat reply and the whole call fails when the chat call
fails.  (The results component being `none` is the part of the claim that
does hold.)  Src: src/recipe_assist.py lines 182-185 and 14-20. -/
theorem claim_C1_counterexample :
    process_message chatEnvA "k" "What is the capital of France?" =
      Except.ok ("Paris is the capital of France.", none, false) ∧
    process_message chatEnvB "k" "What is the capital of France?" =
      Except.ok ("It is Paris.", none, false) ∧
    process_message chatEnvC "k" "What is the capital of France?" =
      Except.error "Error processing message: chat network down" :=
  ⟨rfl, rfl, rfl⟩

/-- C1 amended: for every message classified as not food-related,
`process_message` performs no tool-enabled completion and no recipe search
(its outcome depends only on the classification and plain-chat calls) and
the results component is `None` with the recipe flag `False`; but the
returned text is the plain-chat completion's reply — a general-purpose chat
answer, not a fixed decline message — and a failure of that chat call is
wrapped and surfaced. -/
theorem claim_C1_nonfood_plain_chat (env : Env) (key msg reply : String)
    (hc : env.classifyReply = Except.ok reply)
    (hf : is_recipe_reply reply = false) :
    (∀ content, env.chatReply = Except.ok content →
        process_message env key msg = Except.ok (content, none, false)) ∧
    (∀ e, env.chatReply = Except.error e →
        process_message env key msg = Except.error (errCtx ++ e)) ∧
    (∀ env2 : Env, env2.classifyReply = env.classifyReply →
        env2.chatReply = env.chatReply →
        process_message env2 key msg = process_message env key msg) := by
  refine ⟨?_, ?_, ?_⟩
  · intro content h
    simp [process_message, process_message_body, hc, hf, h, wrapErr]
  · intro e h
    simp [process_message, process_message_body, hc, hf, h, wrapErr]
  · intro env2 h1 h2
    simp [process_message, process_message_body, h1, hc, hf, h2]

/-- Environment for the C1 witness: classified not food-related, chat
answers `"hello"`. -/
def chatEnvW : Env :=
  ⟨Except.ok " no ", Except.error "unused", fun _ => Except.error "unused",
   fun _ => Except.error "unused", Except.error "unused", Except.ok "hello"⟩

/-- Witness for the amended C1 at a concrete environment. -/
theorem claim_C1_witness :
    process_message chatEnvW "k" "m" = Except.ok ("hello", none, false) :=
  (claim_C1_nonfood_plain_chat chatEnvW "k" "m" " no " rfl (by decide)).1 "hello" rfl

/-- C6: for a food-classified message, `process_message` takes exactly the
first structured tool call of the completion response, parses its JSON
argument text, and invokes `search_recipes` with those arguments; when the
response has no tool call, or the argument text is malformed, it raises an
exception surfaced to the caller (wrapped with the context prefix) and the
outcome never depends on the plain-chat call
(src/recipe_assist.py lines 150-188). -/
theorem claim_C6_food_flow (env : Env) (key msg reply : String)
    (hc : env.classifyReply = Except.ok reply)
    (hf : is_recipe_reply reply = true) :
    (∀ resp tc rest args, env.toolResponse = Except.ok resp →
        resp.tool_calls = tc :: rest →
        env.jsonLoads tc.arguments = Except.ok args →
        process_message env key msg =
          wrapErr (match search_recipes env.doGet key args with
                   | Except.error e => Except.error e
                   | Except.ok results =>
                     match env.finalReply with
                     | Except.error e => Except.error e
                     | Except.ok content => Except.ok (content, some results, true))) ∧
    (∀ resp, env.toolResponse = Except.ok resp → resp.tool_calls = [] →
        process_message env key msg = Except.error (errCtx ++ indexErr)) ∧
    (∀ resp tc rest e, env.toolResponse = Except.ok resp →
        resp.tool_calls = tc :: rest →
        env.jsonLoads tc.arguments = Except.error e →
        process_message env key msg = Except.error (errCtx ++ e)) ∧
    (∀ env2 : Env, env2.classifyReply = env.classifyReply →
        env2.toolResponse = env.toolResponse →
        env2.jsonLoads = env.jsonLoads →
        env2.doGet = env.doGet →
        env2.finalReply = env.finalReply →
        process_message env2 key msg = process_message env key msg) := by
  refine ⟨?_, ?_, ?_, ?_⟩
  · intro resp tc rest args h1 h2 h3
    simp [process_message, process_message_body, hc, hf, h1, h2, h3]
  · intro resp h1 h2
    simp [process_message, process_message_body, hc, hf, h1, h2, wrapErr]
  · intro resp tc rest e h1 h2 h3
    simp [process_message, process_message_body, hc, hf, h1, h2, h3, wrapErr]
  · intro env2 h1 h2 h3 h4 h5
    simp [process_message, process_message_body, h1, hc, hf, h2, h3, h4, h5,
      search_recipes]

/-- Environment for the C6 witness: food-classified, but the tool-enabled
completion returns no structured tool call. -/
def toolEnvW : Env :=
  ⟨Except.ok "true", Except.ok ⟨"sure, searching", []⟩,
   fun _ => Except.error "unused", fun _ => Except.error "unused",
   Except.error "unused", Except.error "unused"⟩

/-- Witness for C6: with no tool call in the completion response, the
IndexError is wrapped and surfaced. -/
theorem claim_C6_witness :
    process_message toolEnvW "k" "m" =
      Except.error "Error processing message: list index out of range" :=
  (claim_C6_food_flow toolEnvW "k" "m" "true" rfl (by decide)).2.1
    ⟨"sure, searching", []⟩ rfl rfl

/-- C7: every exception raised by a step inside `process_message`
(classification, tool-enabled completion, argument parsing, recipe search,
second completion, plain chat) propagates upward as a generic exception
whose text is the context prefix followed by the original error text;
nothing is swallowed and a returned value is always the body's full result
(src/recipe_assist.py lines 146-188). -/
theorem claim_C7_error_wrapping (env : Env) (key msg : String) :
    (∀ e, env.classifyReply = Except.error e →
        process_message env key msg = Except.error (errCtx ++ e)) ∧
    (∀ reply, env.classifyReply = Except.ok reply → is_recipe_reply reply = true →
        (∀ e, env.toolResponse = Except.error e →
            process_message env key msg = Except.error (errCtx ++ e)) ∧
        (∀ resp tc rest, env.toolResponse = Except.ok resp →
            resp.tool_calls = tc :: rest →
            (∀ e, env.jsonLoads tc.arguments = Except.error e →
                process_message env key msg = Except.error (errCtx ++ e)) ∧
            (∀ args, env.jsonLoads tc.arguments = Except.ok args →
                (∀ e, search_recipes env.doGet key args = Except.error e →
                    process_message env key msg = Except.error (errCtx ++ e)) ∧
                (∀ results e, search_recipes env.doGet key args = Except.ok results →
                    env.finalReply = Except.error e →
                    process_message env key msg = Except.error (errCtx ++ e))))) ∧
    (∀ reply, env.classifyReply = Except.ok reply → is_recipe_reply reply = false →
        ∀ e, env.chatReply = Except.error e →
          process_message env key msg = Except.error (errCtx ++ e)) ∧
    (∀ e, process_message_body env key msg = Except.error e →
        process_message env key msg = Except.error (errCtx ++ e)) ∧
    (∀ v, process_message env key msg = Except.ok v →
        process_message_body env key msg = Except.ok v) := by
  refine ⟨?_, ?_, ?_, ?_, ?_⟩
  · intro e h
    simp [process_message, process_message_body, h, wrapErr]
  · intro reply hc hf
    refine ⟨?_, ?_⟩
    · intro e h
      simp [process_message, process_message_body, hc, hf, h, wrapErr]
    · intro resp tc rest h1 h2
      refine ⟨?_, ?_⟩
      · intro e h3
        simp [process_message, process_message_body, hc, hf, h1, h2, h3, wrapErr]
      · intro args h3
        refine ⟨?_, ?_⟩
        · intro e h4
          simp [process_message, process_message_body, hc, hf, h1, h2, h3, h4,
            wrapErr]
        · intro results e h4 h5
          simp [process_message, process_message_body, hc, hf, h1, h2, h3, h4, h5,
            wrapErr]
  · intro reply hc hf e h
    simp [process_message, process_message_body, hc, hf, h, wrapErr]
  · intro e h
    simp [process_message, h, wrapErr]
  · intro v h
    unfold process_message wrapErr at h
    cases hb : process_message_body env key msg with
    | error e => rw [hb] at h; exact absurd h (by simp)
    | ok w =>
      rw [hb] at h
      have hw : w = v := by simpa using h
      exact congrArg Except.ok hw

/-- Environment for the C7 witness: the classification call itself fails. -/
def envClassifyErr : Env :=
  ⟨Except.error "classify down", Except.error "unused",
   fun _ => Except.error "unused", fun _ => Except.error "unused",
   Except.error "unused", Except.error "unused"⟩

/-- Witness for C7: a classification failure is wrapped with the context
prefix. -/
theorem claim_C7_witness :
    process_message envClassifyErr "k" "m" =
      Except.error "Error processing message: classify down" :=
  (claim_C7_error_wrapping envClassifyErr "k" "m").1 "classify down" rfl

/-- C10: every non-exceptional return of `process_message` satisfies: the
recipe flag is `False` iff the results component is `None`, and whenever
the flag is `True` the results component is exactly the dictionary returned
by `search_recipes` (src/recipe_assist.py lines 164-185). -/
theorem claim_C10_result_invariant (env : Env) (key msg content0 : String)
    (res : Option SearchResponse) (flag : Bool)
    (h : process_message env key msg = Except.ok (content0, res, flag)) :
    (flag = false ↔ res = none) ∧
    (flag = true →
        ∃ args d, search_recipes env.doGet key args = Except.ok d ∧ res = some d) := by
  cases hcr : env.classifyReply with
  | error e => simp [process_message, process_message_body, wrapErr, hcr] at h
  | ok reply =>
    by_cases hf : is_recipe_reply reply = true
    · cases htr : env.toolResponse with
      | error e =>
        simp [process_message, process_message_body, wrapErr, hcr, hf, htr] at h
      | ok resp =>
        cases htc : resp.tool_calls with
        | nil =>
          simp [process_message, process_message_body, wrapErr, hcr, hf, htr,
            htc] at h
        | cons tc rest =>
          cases hj : env.jsonLoads tc.arguments with
          | error e =>
            simp [process_message, process_message_body, wrapErr, hcr, hf, htr,
              htc, hj] at h
          | ok args =>
            cases hs : search_recipes env.doGet key args with
            | error e =>
              simp [process_message, process_message_body, wrapErr, hcr, hf, htr,
                htc, hj, hs] at h
            | ok results =>
              cases hfr : env.finalReply with
              | error e =>
                simp [process_message, process_message_body, wrapErr, hcr, hf,
                  htr, htc, hj, hs, hfr] at h
              | ok content =>
                simp [process_message, process_message_body, wrapErr, hcr, hf,
                  htr, htc, hj, hs, hfr] at h
                have hflag : flag = true := by simp_all
                have hres : res = some results := by simp_all
                subst hflag
                subst hres
                exact ⟨by simp, fun _ => ⟨args, results, hs, rfl⟩⟩
    · cases hch : env.chatReply with
      | error e =>
        simp [process_message, process_message_body, wrapErr, hcr, hf, hch] at h
      | ok content =>
        simp [process_message, process_message_body, wrapErr, hcr, hf, hch] at h
        have hflag : flag = false := by simp_all
        have hres : res = none := by simp_all
        subst hflag
        subst hres
        exact ⟨by simp, fun hcontra => by simp at hcontra⟩

/-- A concrete successful search response for the C10 witness. -/
def respEx : SearchResponse := ⟨some [], 1⟩

/-- Environment of a fully successful food-query conversation. -/
def envOkFull : Env :=
  ⟨Except.ok "true",
   Except.ok ⟨"calling the search", [⟨"id1", "search_recipes", "{}"⟩]⟩,
   fun _ => Except.ok noArgs,
   fun _ => Except.ok ⟨200, Except.ok respEx⟩,
   Except.ok "Here are some recipes",
   Except.error "unused"⟩

/-- Witness for C10 at a concrete successful food-query run. -/
theorem claim_C10_witness :
    (true = false ↔ (some respEx : Option SearchResponse) = none) ∧
    (true = true →
        ∃ args d, search_recipes envOkFull.doGet "k" args = Except.ok d ∧
          (some respEx : Option SearchResponse) = some d) :=
  claim_C10_result_invariant envOkFull "k" "m" "Here are some recipes"
    (some respEx) true rfl

/-- C8: when the search response's `results` list is empty, or the
`results` key is absent, or the response dict is itself empty (or there is
no response at all), the display path renders nothing: the per-recipe loop
that indexes the title, readyInMinutes, servings and sourceUrl fields is
entered only when the `results` list is non-empty
(src/recipe_assist.py lines 212-221 and 245-254). -/
theorem claim_C8_display_guard (b : Bool) :
    displayRecipes b none = [] ∧
    (∀ r : SearchResponse, r.results = none → displayRecipes b (some r) = []) ∧
    (∀ r : SearchResponse, r.results = some [] → displayRecipes b (some r) = []) ∧
    (∀ r : SearchResponse, dictTruthy r = false → displayRecipes b (some r) = []) ∧
    (∀ r : SearchResponse, ∀ l, r.results = some l →
        displayRecipes b (some r) ≠ [] → l ≠ []) := by
  refine ⟨rfl, ?_, ?_, ?_, ?_⟩
  · intro r h
    simp [displayRecipes, h]
  · intro r h
    simp [displayRecipes, h]
  · intro r h
    simp [displayRecipes, h]
  · intro r l h hne heq
    subst heq
    exact hne (by simp [displayRecipes, h])

/-- A response with an empty `results` list plus other keys, for the C8
witness. -/
def emptyResultsResp : SearchResponse := ⟨some [], 2⟩

/-- Witness for C8: an empty `results` list renders nothing. -/
theorem claim_C8_witness :
    displayRecipes true (some emptyResultsResp) = [] :=
  (claim_C8_display_guard true).2.2.1 emptyResultsResp rfl

end RecipeAssist
